import Mathlib

/-!
Shallow embedding of `src/document360_api.py`: a Document360 folder CRUD
client (`Document360Model`), a console view (`Document360View`), a
presenter (`Document360Presenter`) and a `main` pipeline.

Modelling conventions:
* JSON values are the inductive `Json`; Python `None` is `Json.null`, and a
  Python variable that may hold `None` is an `Option Json` with `none` for
  `None` (`toPy` collapses a decoded JSON `null` to `none`, as Python's
  `json` module decodes `null` to `None`).
* The `requests` library is the `Transport` parameter: a function from the
  request issued to either `some` response or `none` for a
  `requests.RequestException` (connection error, timeout, ...).
  `response.json()` raising is modelled by `PyResponse.jsonP = none`;
  since `requests.exceptions.JSONDecodeError` subclasses both
  `requests.RequestException` and `ValueError`, it is caught by
  `except requests.RequestException` in the model methods and by
  `except ValueError` in the presenter.
* Python runtime errors that the source does not catch (`TypeError` from
  `'id' in data` on a non-container, `AttributeError` from `.get` on a
  non-dict) are the `PyErr` error channel of `Except`.
* `requests.Response.__bool__` is `self.ok`, i.e. `status_code < 400`;
  `responseBool` embeds it, and Python truthiness of JSON values is
  `pyTruthy`.
-/

/-- A decoded JSON value (what `response.json()` returns). -/
inductive Json where
  | null : Json
  | bool (b : Bool) : Json
  | num (n : Int) : Json
  | str (s : String) : Json
  | arr (elems : List Json) : Json
  | obj (fields : List (String × Json)) : Json
deriving Repr

/-- Uncaught Python runtime exceptions. -/
inductive PyErr where
  | typeError (msg : String) : PyErr
  | attributeError (msg : String) : PyErr
deriving Repr, DecidableEq

/-- An HTTP response as seen through `requests`: status code, raw text
body, and the result of `response.json()` (`none` when the body is not
valid JSON, in which case `.json()` raises). -/
structure PyResponse where
  status : Nat
  text : String
  jsonP : Option Json
deriving Repr

inductive Method where
  | GET | POST | PUT | DELETE
deriving Repr, DecidableEq

/-- A request issued by the model. `idSuffix = some v` stands for the URL
`f"{base_url}/{v}"` built by the source's f-string; `none` is the bare
`base_url`. -/
structure Request where
  method : Method
  idSuffix : Option Json
  body : Option Json
deriving Repr

/-- The transport (the `requests` library): `none` models a raised
`requests.RequestException` (no response produced). -/
def Transport : Type := Request → Option PyResponse

/-- Python `None` collapse: `json.loads` decodes JSON `null` to `None`. -/
def toPy : Json → Option Json
  | .null => none
  | j => some j

/-- Python truthiness of a decoded JSON value. -/
def pyTruthy : Json → Bool
  | .null => false
  | .bool b => b
  | .num n => n != 0
  | .str s => s ≠ ""
  | .arr elems => !elems.isEmpty
  | .obj fields => !fields.isEmpty

/-- Python truthiness of a value that may be `None`. -/
def pyTruthyOpt : Option Json → Bool
  | none => false
  | some j => pyTruthy j

/-- Python `needle in hay` for strings: substring test. -/
def pyStrContains (hay needle : String) : Bool :=
  decide (needle.toList <:+: hay.toList)

/-- Python `key in value` (`'id' in response_data`): key lookup on a dict,
membership on a list, substring on a string; `TypeError` otherwise. -/
def pyContains (key : String) : Json → Except PyErr Bool
  | .obj fields => .ok (fields.any (fun p => p.1 == key))
  | .arr elems => .ok (elems.any (fun x => match x with
      | .str s => s == key
      | _ => false))
  | .str s => .ok (pyStrContains s key)
  | _ => .error (.typeError "argument of type is not iterable")

/-- Python `value[key]` (`response_data['id']`): dict lookup; `TypeError`
on any non-dict. -/
def pySubscript (j : Json) (key : String) : Except PyErr Json :=
  match j with
  | .obj fields =>
      match fields.find? (fun p => p.1 == key) with
      | some p => .ok p.2
      | none => .error (.typeError "KeyError")
  | _ => .error (.typeError "indices must be integers")

/-- Python `value.get(key, default)`: only dicts have `.get`; any other
decoded JSON value raises `AttributeError`. -/
def pyDictGet (j : Json) (key : String) (default : Json) :
    Except PyErr Json :=
  match j with
  | .obj fields =>
      match fields.find? (fun p => p.1 == key) with
      | some p => .ok p.2
      | none => .ok default
  | _ => .error (.attributeError "object has no attribute get")

/-- `requests.Response.__bool__` is `self.ok`: status below 400. -/
def responseBool (r : PyResponse) : Bool :=
  r.status < 400

/-- Mutable state of a `Document360Model` instance: just the cached
`self.folder_id` (`None` after `__init__`). `base_url` and `headers` are
fixed at construction and never change. -/
structure ModelState where
  folder_id : Option Json
deriving Repr

def base_url : String := "https://apihub.document360.io/v2/Drive/Folders"

def modelHeaders (api_token : String) : List (String × String) :=
  [("api_token", api_token), ("Content-Type", "application/json")]

/-- Outcome of one model method call: the Python return value (wrapped in
`Except` when the method can raise), the instance state after the call,
and the HTTP requests issued during the call. -/
structure ModelStep (α : Type) where
  result : α
  state : ModelState
  requests : List Request
deriving Repr

namespace Document360Model

/-- `Document360Model.get_all_folders`: GET `base_url`; on status 200
decode the body and require a list; any `requests.RequestException`
(including `response.json()` raising `JSONDecodeError`, a subclass)
yields `(None, None)`. -/
def get_all_folders (t : Transport) (s : ModelState) :
    ModelStep (Option (List Json) × Option PyResponse) :=
  let req : Request := ⟨.GET, none, none⟩
  match t req with
  | none => ⟨(none, none), s, [req]⟩
  | some response =>
    if response.status = 200 then
      match response.jsonP with
      | none => ⟨(none, none), s, [req]⟩
      | some data =>
        match data with
        | .arr elems => ⟨(some elems, some response), s, [req]⟩
        | _ => ⟨(none, some response), s, [req]⟩
    else ⟨(none, some response), s, [req]⟩

/-- `Document360Model.create_folder`: POST `base_url` with
`{"name": folder_name}`; on status 201 decode the body, test
`'id' in response_data` (Python `in`: may raise `TypeError`), cache
`response_data['id']` into `self.folder_id` and return it. -/
def create_folder (t : Transport) (s : ModelState) (folder_name : String) :
    ModelStep (Except PyErr (Option Json × Option PyResponse)) :=
  let body := Json.obj [("name", Json.str folder_name)]
  let req : Request := ⟨.POST, none, some body⟩
  match t req with
  | none => ⟨.ok (none, none), s, [req]⟩
  | some response =>
    if response.status = 201 then
      match response.jsonP with
      | none => ⟨.ok (none, none), s, [req]⟩
      | some response_data =>
        match pyContains "id" response_data with
        | .error e => ⟨.error e, s, [req]⟩
        | .ok true =>
          match pySubscript response_data "id" with
          | .error e => ⟨.error e, s, [req]⟩
          | .ok v => ⟨.ok (toPy v, some response), ⟨toPy v⟩, [req]⟩
        | .ok false => ⟨.ok (none, some response), s, [req]⟩
    else ⟨.ok (none, some response), s, [req]⟩

/-- `Document360Model.update_folder`: local check `if not folder_id:
return False, None` (no request), else PUT `base_url/folder_id` with
`{"name": new_name}` and succeed iff status is 200. The parameter is the
runtime Python value (annotated `str` in the source). -/
def update_folder (t : Transport) (s : ModelState) (folder_id : Json)
    (new_name : String) : ModelStep (Bool × Option PyResponse) :=
  if pyTruthy folder_id then
    let body := Json.obj [("name", Json.str new_name)]
    let req : Request := ⟨.PUT, some folder_id, some body⟩
    match t req with
    | none => ⟨(false, none), s, [req]⟩
    | some response =>
        ⟨(decide (response.status = 200), some response), s, [req]⟩
  else ⟨(false, none), s, []⟩

/-- `Document360Model.delete_folder`: local check `if not folder_id:
return False, None` (no request), else DELETE `base_url/folder_id` and
succeed iff status is 204. -/
def delete_folder (t : Transport) (s : ModelState) (folder_id : Json) :
    ModelStep (Bool × Option PyResponse) :=
  if pyTruthy folder_id then
    let req : Request := ⟨.DELETE, some folder_id, none⟩
    match t req with
    | none => ⟨(false, none), s, [req]⟩
    | some response =>
        ⟨(decide (response.status = 204), some response), s, [req]⟩
  else ⟨(false, none), s, []⟩

end Document360Model

mutual

/-- Python `str()` of a decoded JSON value, as used by the source's
f-strings; for containers `str` falls back to `repr`. (Escaping of
special characters inside string elements is not modelled; no claim
exercises it.) -/
def pyStrOf : Json → String
  | .null => "None"
  | .bool true => "True"
  | .bool false => "False"
  | .num n => toString n
  | .str s => s
  | .arr elems => "[" ++ String.intercalate ", " (pyReprL elems) ++ "]"
  | .obj fields => "\x7b" ++ String.intercalate ", " (pyReprF fields) ++ "\x7d"

/-- Python `repr()` of a decoded JSON value (strings get quotes). -/
def pyReprOf : Json → String
  | .null => "None"
  | .bool true => "True"
  | .bool false => "False"
  | .num n => toString n
  | .str s => "\x27" ++ s ++ "\x27"
  | .arr elems => "[" ++ String.intercalate ", " (pyReprL elems) ++ "]"
  | .obj fields => "\x7b" ++ String.intercalate ", " (pyReprF fields) ++ "\x7d"

def pyReprL : List Json → List String
  | [] => []
  | x :: xs => pyReprOf x :: pyReprL xs

def pyReprF : List (String × Json) → List String
  | [] => []
  | (k, v) :: xs => ("\x27" ++ k ++ "\x27: " ++ pyReprOf v) :: pyReprF xs

end

/-- One console interaction of `Document360View`, in order of emission.
`logRequest` records method, the optional id appended to `base_url`, and
the JSON body; headers are the constant `modelHeaders` and are omitted. -/
inductive ViewEvent where
  | logRequest (method : Method) (idSuffix : Option Json)
      (body : Option Json)
  | logResponse (response : Option PyResponse)
  | showSuccess (msg : String)
  | showError (msg : String) (status_code expected_status : Option Nat)
      (error_detail : Option Json)
deriving Repr

/-- Outcome of one presenter method (or of `main`): console events,
requests issued, model state after the call, and the return value or an
uncaught Python exception. -/
structure PStep (α : Type) where
  events : List ViewEvent
  requests : List Request
  state : ModelState
  result : Except PyErr α
deriving Repr

/-- The error-detail block duplicated in all four presenter methods:
`error_detail = None; if response: try: error_detail =
response.json().get(...) except ValueError: error_detail = response.text`.
`if response:` uses `Response.__bool__` (status < 400); `.get` on a
non-dict raises an uncaught `AttributeError`. -/
def error_detail_block (response : Option PyResponse) :
    Except PyErr (Option Json) :=
  match response with
  | none => .ok none
  | some r =>
    if responseBool r then
      match r.jsonP with
      | some j =>
        match pyDictGet j "error" (Json.str "No error details provided") with
        | .ok v => .ok (toPy v)
        | .error e => .error e
      | none => .ok (some (Json.str r.text))
    else .ok none

/-- The `response.status_code if response else None` argument passed to
`show_error`; again `if response` is `Response.__bool__`. -/
def status_code_if (response : Option PyResponse) : Option Nat :=
  match response with
  | some r => if responseBool r then some r.status else none
  | none => none

namespace Document360Presenter

/-- `Document360Presenter.get_all_folders`. -/
def get_all_folders (t : Transport) (s : ModelState) :
    PStep (Option (List Json)) :=
  let ev0 : List ViewEvent :=
    [.showSuccess "Task 1: Fetching all folders",
     .logRequest .GET none none]
  let step := Document360Model.get_all_folders t s
  let (data, response) := step.result
  let ev1 := ev0 ++ [.logResponse response]
  match data with
  | some xs => ⟨ev1, step.requests, step.state, .ok (some xs)⟩
  | none =>
    match error_detail_block response with
    | .error e => ⟨ev1, step.requests, step.state, .error e⟩
    | .ok error_detail =>
      ⟨ev1 ++ [.showError "Failed to fetch folders" (status_code_if response)
          (some 200) error_detail],
       step.requests, step.state, .ok none⟩

/-- `Document360Presenter.create_folder`. -/
def create_folder (t : Transport) (s : ModelState) (folder_name : String) :
    PStep (Option Json) :=
  let ev0 : List ViewEvent :=
    [.showSuccess "Task 2: Creating a new folder",
     .logRequest .POST none
       (some (Json.obj [("name", Json.str folder_name)]))]
  let step := Document360Model.create_folder t s folder_name
  match step.result with
  | .error e => ⟨ev0, step.requests, step.state, .error e⟩
  | .ok (folder_id, response) =>
    let ev1 := ev0 ++ [.logResponse response]
    match folder_id with
    | none =>
      match error_detail_block response with
      | .error e => ⟨ev1, step.requests, step.state, .error e⟩
      | .ok error_detail =>
        ⟨ev1 ++ [.showError "Failed to create folder"
            (status_code_if response) (some 201) error_detail],
         step.requests, step.state, .ok none⟩
    | some fid =>
      ⟨ev1 ++ [.showSuccess ("Folder \x27" ++ folder_name ++
          "\x27 created with ID: " ++ pyStrOf fid)],
       step.requests, step.state, .ok (some fid)⟩

/-- `Document360Presenter.update_folder`. -/
def update_folder (t : Transport) (s : ModelState) (folder_id : Json)
    (new_name : String) : PStep Bool :=
  let ev0 : List ViewEvent :=
    [.showSuccess "Task 3: Updating folder name",
     .logRequest .PUT (some folder_id)
       (some (Json.obj [("name", Json.str new_name)]))]
  let step := Document360Model.update_folder t s folder_id new_name
  let (success, response) := step.result
  let ev1 := ev0 ++ [.logResponse response]
  if success then
    ⟨ev1 ++ [.showSuccess ("Folder ID " ++ pyStrOf folder_id ++
        " renamed to \x27" ++ new_name ++ "\x27")],
     step.requests, step.state, .ok true⟩
  else
    match error_detail_block response with
    | .error e => ⟨ev1, step.requests, step.state, .error e⟩
    | .ok error_detail =>
      ⟨ev1 ++ [.showError "Failed to update folder" (status_code_if response)
          (some 200) error_detail],
       step.requests, step.state, .ok false⟩

/-- `Document360Presenter.delete_folder`. -/
def delete_folder (t : Transport) (s : ModelState) (folder_id : Json) :
    PStep Bool :=
  let ev0 : List ViewEvent :=
    [.showSuccess "Task 4: Deleting folder",
     .logRequest .DELETE (some folder_id) none]
  let step := Document360Model.delete_folder t s folder_id
  let (success, response) := step.result
  let ev1 := ev0 ++ [.logResponse response]
  if success then
    ⟨ev1 ++ [.showSuccess ("Folder ID " ++ pyStrOf folder_id ++ " deleted")],
     step.requests, step.state, .ok true⟩
  else
    match error_detail_block response with
    | .error e => ⟨ev1, step.requests, step.state, .error e⟩
    | .ok error_detail =>
      ⟨ev1 ++ [.showError "Failed to delete folder" (status_code_if response)
          (some 204) error_detail],
       step.requests, step.state, .ok false⟩

end Document360Presenter

/-- Python truthiness of `folders` in `main` (`None` or a decoded list). -/
def pyTruthyList : Option (List Json) → Bool
  | none => false
  | some xs => !xs.isEmpty

/-- `main`: the List → Create → Update → Delete pipeline. The transport
and the two `uuid4`-derived random names are parameters; the result is
the process exit code (`0` when `main` returns normally, `1` for each
`sys.exit(1)`) or an uncaught Python exception. -/
def mainRun (t : Transport) (folder_name new_folder_name : String) :
    PStep Nat :=
  let s0 : ModelState := ⟨none⟩
  let p1 := Document360Presenter.get_all_folders t s0
  match p1.result with
  | .error e => ⟨p1.events, p1.requests, p1.state, .error e⟩
  | .ok folders =>
    if pyTruthyList folders = false then
      ⟨p1.events ++
         [.showError "Failed to fetch folders. Exiting." none none none],
       p1.requests, p1.state, .ok 1⟩
    else
      let p2 := Document360Presenter.create_folder t p1.state folder_name
      let ev2 := p1.events ++ p2.events
      let rq2 := p1.requests ++ p2.requests
      match p2.result with
      | .error e => ⟨ev2, rq2, p2.state, .error e⟩
      | .ok none =>
        ⟨ev2 ++ [.showError "Failed to create folder. Exiting." none none none],
         rq2, p2.state, .ok 1⟩
      | .ok (some fid) =>
        if pyTruthy fid = false then
          ⟨ev2 ++
             [.showError "Failed to create folder. Exiting." none none none],
           rq2, p2.state, .ok 1⟩
        else
          let p3 :=
            Document360Presenter.update_folder t p2.state fid new_folder_name
          let ev3 := ev2 ++ p3.events
          let rq3 := rq2 ++ p3.requests
          match p3.result with
          | .error e => ⟨ev3, rq3, p3.state, .error e⟩
          | .ok false =>
            ⟨ev3 ++
               [.showError "Failed to update folder. Exiting." none none none],
             rq3, p3.state, .ok 1⟩
          | .ok true =>
            let p4 := Document360Presenter.delete_folder t p3.state fid
            let ev4 := ev3 ++ p4.events
            let rq4 := rq3 ++ p4.requests
            match p4.result with
            | .error e => ⟨ev4, rq4, p4.state, .error e⟩
            | .ok false =>
              ⟨ev4 ++
                 [.showError "Failed to delete folder. Exiting." none none none],
               rq4, p4.state, .ok 1⟩
            | .ok true => ⟨ev4, rq4, p4.state, .ok 0⟩

/-! ### Concrete transports for the claimed scenarios -/

/-- Transport that always raises `requests.RequestException`. -/
def transportDown : Transport := fun _ => none

def responseEmptyList : PyResponse := ⟨200, "[]", some (Json.arr [])⟩

def responseCreated : PyResponse :=
  ⟨201, "\x7b\"id\":\"abc123\"\x7d", some (Json.obj [("id", Json.str "abc123")])⟩

def responseUpdated : PyResponse := ⟨200, "\x7b\x7d", some (Json.obj [])⟩

def responseDeleted : PyResponse := ⟨204, "", none⟩

/-- End-to-end scenario of the spec: List gets `200 []`, Create gets
`201` with an id, Update `200`, Delete `204`. -/
def transportEmptyList : Transport := fun req =>
  match req.method with
  | .GET => some responseEmptyList
  | .POST => some ⟨201, "\x7b\"id\":\"f1\"\x7d",
      some (Json.obj [("id", Json.str "f1")])⟩
  | .PUT => some responseUpdated
  | .DELETE => some responseDeleted

def responseOneFolder : PyResponse :=
  ⟨200, "[\x7b\"id\":\"z\"\x7d]", some (Json.arr [Json.obj [("id", Json.str "z")]])⟩

/-- Same as `transportEmptyList` but List returns one folder. -/
def transportOneFolder : Transport := fun req =>
  match req.method with
  | .GET => some responseOneFolder
  | .POST => some ⟨201, "\x7b\"id\":\"f1\"\x7d",
      some (Json.obj [("id", Json.str "f1")])⟩
  | .PUT => some responseUpdated
  | .DELETE => some responseDeleted

def responseEmptyObj : PyResponse := ⟨201, "\x7b\x7d", some (Json.obj [])⟩

/-- Create gets `201` with body `\x7b\x7d` (no `id`). -/
def transportEmptyObj : Transport := fun _ => some responseEmptyObj

def responseCreatedOkStatus : PyResponse :=
  ⟨200, "\x7b\"name\":\"Test\"\x7d", some (Json.obj [("name", Json.str "Test")])⟩

/-- Create gets status `200` (mismatch) with a well-formed object body
that has no `error` field. -/
def transportWrongStatus : Transport := fun _ => some responseCreatedOkStatus

def transportCreated : Transport := fun _ => some responseCreated

def responseNotAList : PyResponse :=
  ⟨200, "\x7b\"not\":\"a list\"\x7d", some (Json.obj [("not", Json.str "a list")])⟩

def transportNotAList : Transport := fun _ => some responseNotAList

def responseNotFound : PyResponse :=
  ⟨404, "\x7b\"error\":\"Folder not found\"\x7d",
   some (Json.obj [("error", Json.str "Folder not found")])⟩

def transport404 : Transport := fun _ => some responseNotFound

def responseServerError : PyResponse := ⟨500, "internal error", none⟩

def transport500 : Transport := fun _ => some responseServerError

def responseDuplicate : PyResponse :=
  ⟨400, "\x7b\"error\":\"duplicate name\"\x7d",
   some (Json.obj [("error", Json.str "duplicate name")])⟩

/-- Failure scenario of the spec: List succeeds (one folder), Create gets
`400` with `\x7b"error":"duplicate name"\x7d`. -/
def transportDuplicate : Transport := fun req =>
  match req.method with
  | .GET => some responseOneFolder
  | _ => some responseDuplicate

def responseNullBody : PyResponse := ⟨201, "null", some Json.null⟩

/-- Create gets the expected `201` but the body is the valid JSON `null`,
which `response.json()` decodes to Python `None`. -/
def transportNullBody : Transport := fun _ => some responseNullBody

def responseBadBodyOk : PyResponse := ⟨200, "not json", none⟩

def responseBadBodyCreated : PyResponse := ⟨201, "not json", none⟩

/-- Expected statuses but bodies that fail to parse as JSON. -/
def transportBadBody : Transport := fun req =>
  match req.method with
  | .GET => some responseBadBodyOk
  | _ => some responseBadBodyCreated

/-! ### Frame-property characterization for the cached folder id -/

/-- Characterization used by the frame claim: the assignment that a
`create_folder` call performs on `self.folder_id`, as a function of the
transport. `some v` means `folder_id` is set to `v`; `none` means it is
left untouched. It is `some` exactly when the POST response exists, has
status 201, and its decoded JSON body is an object with an `id` key. -/
def folderIdAssignment (t : Transport) (folder_name : String) :
    Option (Option Json) :=
  match t ⟨.POST, none, some (Json.obj [("name", Json.str folder_name)])⟩ with
  | none => none
  | some r =>
    if r.status = 201 then
      match r.jsonP with
      | some (.obj fields) =>
        match fields.find? (fun p => p.1 == "id") with
        | some p => some (toPy p.2)
        | none => none
      | _ => none
    else none

/-- Does a decoded body (when present) carry an object with an `id` key? -/
def jsonHasIdKey : Option Json → Bool
  | some (.obj fields) => fields.any (fun p => p.1 == "id")
  | _ => false


/-! ## Claims -/

/-- C1: the spec's end-to-end success scenario — List returns `200` with
body `[]`, and Create/Update/Delete would return their contractual
statuses — is claimed to report success for all four steps and exit 0.
The code instead halts after List with exit code 1: `if not folders:`
treats the empty Python list as falsy, issues no further request, and
reports "Failed to fetch folders. Exiting.". With a non-empty List body
the very same transport responses drive the pipeline to exit code 0 with
all four requests issued. -/
theorem c1_empty_list_scenario_exits_one :
    (mainRun transportEmptyList "Test" "Test2").result = Except.ok 1
  ∧ (mainRun transportEmptyList "Test" "Test2").requests =
      [⟨Method.GET, none, none⟩]
  ∧ (mainRun transportEmptyList "Test" "Test2").events =
      [ViewEvent.showSuccess "Task 1: Fetching all folders",
       ViewEvent.logRequest Method.GET none none,
       ViewEvent.logResponse (some responseEmptyList),
       ViewEvent.showError "Failed to fetch folders. Exiting." none none none]
  ∧ (mainRun transportOneFolder "Test" "Test2").result = Except.ok 0
  ∧ (mainRun transportOneFolder "Test" "Test2").requests =
      [⟨Method.GET, none, none⟩,
       ⟨Method.POST, none, some (Json.obj [("name", Json.str "Test")])⟩,
       ⟨Method.PUT, some (Json.str "f1"),
         some (Json.obj [("name", Json.str "Test2")])⟩,
       ⟨Method.DELETE, some (Json.str "f1"), none⟩] :=
  ⟨rfl, rfl, rfl, rfl, rfl⟩

/-- C2 (counterexample): on status 201 with body `\x7b\x7d` the failure
detail is the fixed fallback string `No error details provided` — the
same detail produced by an ordinary status mismatch whose body lacks an
`error` field — so the detail does not indicate a malformed response. -/
theorem c2_counterexample_generic_detail :
    (Document360Presenter.create_folder transportEmptyObj ⟨none⟩ "Test").events
      = [ViewEvent.showSuccess "Task 2: Creating a new folder",
         ViewEvent.logRequest Method.POST none
           (some (Json.obj [("name", Json.str "Test")])),
         ViewEvent.logResponse (some responseEmptyObj),
         ViewEvent.showError "Failed to create folder" (some 201) (some 201)
           (some (Json.str "No error details provided"))]
  ∧ (Document360Presenter.create_folder transportWrongStatus ⟨none⟩
        "Test").events
      = [ViewEvent.showSuccess "Task 2: Creating a new folder",
         ViewEvent.logRequest Method.POST none
           (some (Json.obj [("name", Json.str "Test")])),
         ViewEvent.logResponse (some responseCreatedOkStatus),
         ViewEvent.showError "Failed to create folder" (some 200) (some 201)
           (some (Json.str "No error details provided"))] :=
  ⟨rfl, rfl⟩

/-- C2 (amended): on status 201 with body `\x7b"id":"abc123"\x7d`,
`create_folder` returns the id `abc123` (model and presenter); on status
201 with body `\x7b\x7d` it returns a failure (`None`) despite the
matching status, reported with observed and expected status both 201 and
the generic default detail `No error details provided`. -/
theorem c2_create_id_or_default_detail :
    (Document360Model.create_folder transportCreated ⟨none⟩ "Test").result
      = Except.ok (some (Json.str "abc123"), some responseCreated)
  ∧ (Document360Presenter.create_folder transportCreated ⟨none⟩ "Test").result
      = Except.ok (some (Json.str "abc123"))
  ∧ (Document360Presenter.create_folder transportEmptyObj ⟨none⟩ "Test").result
      = Except.ok none
  ∧ (Document360Presenter.create_folder transportEmptyObj ⟨none⟩ "Test").events
      = [ViewEvent.showSuccess "Task 2: Creating a new folder",
         ViewEvent.logRequest Method.POST none
           (some (Json.obj [("name", Json.str "Test")])),
         ViewEvent.logResponse (some responseEmptyObj),
         ViewEvent.showError "Failed to create folder" (some 201) (some 201)
           (some (Json.str "No error details provided"))] :=
  ⟨rfl, rfl, rfl, rfl⟩

/-- C3 (counterexample): on status 200 with the non-list body
`\x7b"not":"a list"\x7d`, List does fail, but the reported detail is
`No error details provided`, not the claimed `unexpected response shape`
(no such string exists in the code). -/
theorem c3_counterexample_no_shape_detail :
    (Document360Presenter.get_all_folders transportNotAList ⟨none⟩).events
      = [ViewEvent.showSuccess "Task 1: Fetching all folders",
         ViewEvent.logRequest Method.GET none none,
         ViewEvent.logResponse (some responseNotAList),
         ViewEvent.showError "Failed to fetch folders" (some 200) (some 200)
           (some (Json.str "No error details provided"))]
  ∧ Json.str "No error details provided" ≠ Json.str "unexpected response shape" := by
  refine ⟨rfl, ?_⟩
  intro h
  simp only [Json.str.injEq] at h
  exact absurd h (by decide)

/-- C3 (amended): on status 200 with a decoded body that is not a list,
`get_all_folders` returns `None` and the presenter reports a failure with
observed status 200, expected status 200, and the default detail
`No error details provided`. -/
theorem c3_list_shape_mismatch_fails :
    (Document360Model.get_all_folders transportNotAList ⟨none⟩).result
      = (none, some responseNotAList)
  ∧ (Document360Presenter.get_all_folders transportNotAList ⟨none⟩).result
      = Except.ok none
  ∧ (Document360Presenter.get_all_folders transportNotAList ⟨none⟩).events
      = [ViewEvent.showSuccess "Task 1: Fetching all folders",
         ViewEvent.logRequest Method.GET none none,
         ViewEvent.logResponse (some responseNotAList),
         ViewEvent.showError "Failed to fetch folders" (some 200) (some 200)
           (some (Json.str "No error details provided"))] :=
  ⟨rfl, rfl, rfl⟩

/-- C4: when the transport raises (`requests.RequestException`, no HTTP
response), each of the four operations returns its failure value and is
reported with observed status absent, the operation's contractual
expected status (200, 201, 200, 204), and no detail. -/
theorem c4_transport_failure_uniform (s : ModelState)
    (name new_name : String) (fid : Json) (hfid : pyTruthy fid = true) :
    (Document360Presenter.get_all_folders transportDown s).result
      = Except.ok none
  ∧ (Document360Presenter.get_all_folders transportDown s).events =
      [ViewEvent.showSuccess "Task 1: Fetching all folders",
       ViewEvent.logRequest Method.GET none none,
       ViewEvent.logResponse none,
       ViewEvent.showError "Failed to fetch folders" none (some 200) none]
  ∧ (Document360Presenter.create_folder transportDown s name).result
      = Except.ok none
  ∧ (Document360Presenter.create_folder transportDown s name).events =
      [ViewEvent.showSuccess "Task 2: Creating a new folder",
       ViewEvent.logRequest Method.POST none
         (some (Json.obj [("name", Json.str name)])),
       ViewEvent.logResponse none,
       ViewEvent.showError "Failed to create folder" none (some 201) none]
  ∧ (Document360Presenter.update_folder transportDown s fid new_name).result
      = Except.ok false
  ∧ (Document360Presenter.update_folder transportDown s fid new_name).events =
      [ViewEvent.showSuccess "Task 3: Updating folder name",
       ViewEvent.logRequest Method.PUT (some fid)
         (some (Json.obj [("name", Json.str new_name)])),
       ViewEvent.logResponse none,
       ViewEvent.showError "Failed to update folder" none (some 200) none]
  ∧ (Document360Presenter.delete_folder transportDown s fid).result
      = Except.ok false
  ∧ (Document360Presenter.delete_folder transportDown s fid).events =
      [ViewEvent.showSuccess "Task 4: Deleting folder",
       ViewEvent.logRequest Method.DELETE (some fid) none,
       ViewEvent.logResponse none,
       ViewEvent.showError "Failed to delete folder" none (some 204) none] := by
  refine ⟨rfl, rfl, rfl, rfl, ?_, ?_, ?_, ?_⟩ <;>
    simp [Document360Presenter.update_folder,
      Document360Presenter.delete_folder, Document360Model.update_folder,
      Document360Model.delete_folder, transportDown, hfid,
      error_detail_block, status_code_if]

/-- C4 witness: the hypothesis holds at the id `"f1"`, and the theorem
applies. -/
theorem c4_transport_failure_uniform_witness :
    pyTruthy (Json.str "f1") = true ∧
    (Document360Presenter.update_folder transportDown ⟨none⟩ (Json.str "f1")
        "m").result = Except.ok false :=
  ⟨by decide,
   (c4_transport_failure_uniform ⟨none⟩ "n" "m" (Json.str "f1")
      (by decide)).2.2.2.2.1⟩

/-- C5: with the empty-string id, Update and Delete fail immediately —
the local `if not folder_id:` check returns `(False, None)` — with no
request issued (empty request list) and a failure report carrying no
observed status and no detail. -/
theorem c5_empty_id_short_circuit (t : Transport) (s : ModelState)
    (new_name : String) :
    Document360Presenter.update_folder t s (Json.str "") new_name =
      ⟨[ViewEvent.showSuccess "Task 3: Updating folder name",
        ViewEvent.logRequest Method.PUT (some (Json.str ""))
          (some (Json.obj [("name", Json.str new_name)])),
        ViewEvent.logResponse none,
        ViewEvent.showError "Failed to update folder" none (some 200) none],
       [], s, Except.ok false⟩
  ∧ Document360Presenter.delete_folder t s (Json.str "") =
      ⟨[ViewEvent.showSuccess "Task 4: Deleting folder",
        ViewEvent.logRequest Method.DELETE (some (Json.str "")) none,
        ViewEvent.logResponse none,
        ViewEvent.showError "Failed to delete folder" none (some 204) none],
       [], s, Except.ok false⟩ :=
  ⟨rfl, rfl⟩

/-- C5 witness: the theorem at a concrete transport, state and name. -/
theorem c5_empty_id_short_circuit_witness :
    Document360Presenter.update_folder transport404 ⟨none⟩ (Json.str "")
        "m" =
      ⟨[ViewEvent.showSuccess "Task 3: Updating folder name",
        ViewEvent.logRequest Method.PUT (some (Json.str ""))
          (some (Json.obj [("name", Json.str "m")])),
        ViewEvent.logResponse none,
        ViewEvent.showError "Failed to update folder" none (some 200) none],
       [], ⟨none⟩, Except.ok false⟩ :=
  (c5_empty_id_short_circuit transport404 ⟨none⟩ "m").1

/-- C6: the claim says a status-mismatch failure always gets its detail
from the body's `error` field (JSON) or the raw text (non-JSON). The code
guards detail extraction with `if response:`, which is
`requests.Response.__bool__`, i.e. `status_code < 400` — so for the
claimed inputs (404 with `\x7b"error":"Folder not found"\x7d`, 500 with
raw `internal error`) every operation reports observed status `None` and
detail `None` instead of 404/"Folder not found" and "internal error". -/
theorem c6_detail_skipped_for_error_statuses :
    (Document360Presenter.get_all_folders transport404 ⟨none⟩).events =
      [ViewEvent.showSuccess "Task 1: Fetching all folders",
       ViewEvent.logRequest Method.GET none none,
       ViewEvent.logResponse (some responseNotFound),
       ViewEvent.showError "Failed to fetch folders" none (some 200) none]
  ∧ (Document360Presenter.create_folder transport404 ⟨none⟩ "Test").events =
      [ViewEvent.showSuccess "Task 2: Creating a new folder",
       ViewEvent.logRequest Method.POST none
         (some (Json.obj [("name", Json.str "Test")])),
       ViewEvent.logResponse (some responseNotFound),
       ViewEvent.showError "Failed to create folder" none (some 201) none]
  ∧ (Document360Presenter.update_folder transport404 ⟨none⟩ (Json.str "f1")
        "Test2").events =
      [ViewEvent.showSuccess "Task 3: Updating folder name",
       ViewEvent.logRequest Method.PUT (some (Json.str "f1"))
         (some (Json.obj [("name", Json.str "Test2")])),
       ViewEvent.logResponse (some responseNotFound),
       ViewEvent.showError "Failed to update folder" none (some 200) none]
  ∧ (Document360Presenter.delete_folder transport404 ⟨none⟩
        (Json.str "f1")).events =
      [ViewEvent.showSuccess "Task 4: Deleting folder",
       ViewEvent.logRequest Method.DELETE (some (Json.str "f1")) none,
       ViewEvent.logResponse (some responseNotFound),
       ViewEvent.showError "Failed to delete folder" none (some 204) none]
  ∧ (Document360Presenter.get_all_folders transport500 ⟨none⟩).events =
      [ViewEvent.showSuccess "Task 1: Fetching all folders",
       ViewEvent.logRequest Method.GET none none,
       ViewEvent.logResponse (some responseServerError),
       ViewEvent.showError "Failed to fetch folders" none (some 200) none] :=
  ⟨rfl, rfl, rfl, rfl, rfl⟩

/-- C7 (counterexample): in the spec's failure scenario (List succeeds,
Create gets 400 with `\x7b"error":"duplicate name"\x7d`) the emitted
Create-failure report carries no detail at all: no event of the run is
the claimed report with detail `duplicate name`, while the actually
emitted report has observed status and detail both `None`. -/
theorem c7_counterexample_detail_absent :
    ViewEvent.showError "Failed to create folder" none (some 201) none
      ∈ (mainRun transportDuplicate "a" "b").events
  ∧ (∀ e ∈ (mainRun transportDuplicate "a" "b").events,
      e ≠ ViewEvent.showError "Failed to create folder" (some 400) (some 201)
            (some (Json.str "duplicate name"))) := by
  have hev : (mainRun transportDuplicate "a" "b").events =
      [ViewEvent.showSuccess "Task 1: Fetching all folders",
       ViewEvent.logRequest Method.GET none none,
       ViewEvent.logResponse (some responseOneFolder),
       ViewEvent.showSuccess "Task 2: Creating a new folder",
       ViewEvent.logRequest Method.POST none
         (some (Json.obj [("name", Json.str "a")])),
       ViewEvent.logResponse (some responseDuplicate),
       ViewEvent.showError "Failed to create folder" none (some 201) none,
       ViewEvent.showError "Failed to create folder. Exiting."
         none none none] := rfl
  rw [hev]
  refine ⟨by simp, ?_⟩
  intro e he
  simp only [List.mem_cons, List.not_mem_nil, or_false] at he
  rcases he with h | h | h | h | h | h | h | h <;> subst h <;> simp

/-- C7 (amended): the coordinator is fail-fast — in the failure scenario
the run issues only the GET and POST requests (Update and Delete are
never attempted), reports the Create failure ("Failed to create folder",
expected 201, but with observed status and detail absent because the
`if response:` truthiness check skips extraction for status 400) and
exits with code 1. -/
theorem c7_fail_fast_halts_after_create :
    (mainRun transportDuplicate "a" "b").requests =
      [⟨Method.GET, none, none⟩,
       ⟨Method.POST, none, some (Json.obj [("name", Json.str "a")])⟩]
  ∧ (mainRun transportDuplicate "a" "b").result = Except.ok 1
  ∧ (mainRun transportDuplicate "a" "b").events =
      [ViewEvent.showSuccess "Task 1: Fetching all folders",
       ViewEvent.logRequest Method.GET none none,
       ViewEvent.logResponse (some responseOneFolder),
       ViewEvent.showSuccess "Task 2: Creating a new folder",
       ViewEvent.logRequest Method.POST none
         (some (Json.obj [("name", Json.str "a")])),
       ViewEvent.logResponse (some responseDuplicate),
       ViewEvent.showError "Failed to create folder" none (some 201) none,
       ViewEvent.showError "Failed to create folder. Exiting."
         none none none] :=
  ⟨rfl, rfl, rfl⟩

/-- C8: `create_folder` is claimed to always return a result value. But
when the transport yields the expected status 201 with the valid JSON
body `null` (decoded to Python `None`), the membership test
`'id' in response_data` raises an uncaught `TypeError`, which escapes the
model method and the presenter; the cached id is left untouched. -/
theorem c8_create_folder_raises :
    (Document360Model.create_folder transportNullBody ⟨none⟩ "Test").result
      = Except.error (PyErr.typeError "argument of type is not iterable")
  ∧ (Document360Model.create_folder transportNullBody ⟨none⟩ "Test").state
      = ⟨none⟩
  ∧ (Document360Presenter.create_folder transportNullBody ⟨none⟩
        "Test").result
      = Except.error (PyErr.typeError "argument of type is not iterable") :=
  ⟨rfl, rfl, rfl⟩

/-- Bridge: an empty `find?` means `any` is false. -/
theorem any_eq_false_of_find?_eq_none {α : Type} {l : List α} {p : α → Bool}
    (h : l.find? p = none) : l.any p = false := by
  rw [List.any_eq_false]
  intro x hx
  rw [List.find?_eq_none] at h
  simpa using h x hx

/-- Bridge: a successful `find?` means `any` is true. -/
theorem any_eq_true_of_find?_eq_some {α : Type} {l : List α} {p : α → Bool}
    {x : α} (h : l.find? p = some x) : l.any p = true := by
  rw [List.any_eq_true]
  exact ⟨x, List.mem_of_find?_eq_some h, List.find?_some h⟩

/-- C9: the cached `self.folder_id` is a frame for three of the four
methods — `get_all_folders`, `update_folder` and `delete_folder` return
the state unchanged for every transport and every input (in particular a
successful Delete does not clear it) — and `create_folder` rewrites it
exactly as `folderIdAssignment` describes: an assignment happens iff the
POST response exists, has status 201, and its decoded body is a JSON
object with an `id` key. -/
theorem c9_folder_id_frame (t : Transport) (s : ModelState)
    (name new_name : String) (fid : Json) :
    (Document360Model.get_all_folders t s).state = s
  ∧ (Document360Model.update_folder t s fid new_name).state = s
  ∧ (Document360Model.delete_folder t s fid).state = s
  ∧ (Document360Model.create_folder t s name).state.folder_id
      = (folderIdAssignment t name).getD s.folder_id
  ∧ (folderIdAssignment t name).isSome
      = (match t ⟨Method.POST, none,
            some (Json.obj [("name", Json.str name)])⟩ with
         | some r => decide (r.status = 201) && jsonHasIdKey r.jsonP
         | none => false) := by
  refine ⟨?_, ?_, ?_, ?_, ?_⟩
  · unfold Document360Model.get_all_folders
    dsimp only
    repeat' split
    all_goals rfl
  · unfold Document360Model.update_folder
    dsimp only
    repeat' split
    all_goals rfl
  · unfold Document360Model.delete_folder
    dsimp only
    repeat' split
    all_goals rfl
  · unfold Document360Model.create_folder folderIdAssignment
    dsimp only
    cases h : t ⟨Method.POST, none,
        some (Json.obj [("name", Json.str name)])⟩ with
    | none => rfl
    | some r =>
      by_cases hst : r.status = 201
      · simp only [hst, if_true, if_pos]
        cases hj : r.jsonP with
        | none => rfl
        | some data =>
          cases data with
          | null => rfl
          | bool b => rfl
          | num n => rfl
          | str s' =>
            cases hc : pyStrContains s' "id" <;>
              simp [pyContains, hc, pySubscript]
          | arr elems =>
            cases hc : elems.any (fun x => match x with
                | Json.str s => s == "id"
                | _ => false) <;>
              simp [pyContains, hc, pySubscript]
          | obj fields =>
            cases hf : fields.find? (fun p => p.1 == "id") with
            | none =>
              simp [pyContains, any_eq_false_of_find?_eq_none hf, hf]
            | some pr =>
              simp [pyContains, any_eq_true_of_find?_eq_some hf, hf,
                pySubscript]
      · simp [hst]
  · unfold folderIdAssignment
    cases h : t ⟨Method.POST, none,
        some (Json.obj [("name", Json.str name)])⟩ with
    | none => rfl
    | some r =>
      by_cases hst : r.status = 201
      · simp only [hst, if_true, if_pos]
        cases hj : r.jsonP with
        | none => rfl
        | some data =>
          cases data with
          | null => rfl
          | bool b => rfl
          | num n => rfl
          | str s' => simp [jsonHasIdKey, hst]
          | arr elems => simp [jsonHasIdKey, hst]
          | obj fields =>
            cases hf : fields.find? (fun p => p.1 == "id") with
            | none =>
              simp [jsonHasIdKey, hst, hf,
                any_eq_false_of_find?_eq_none hf]
            | some pr =>
              simp [jsonHasIdKey, hst, hf,
                any_eq_true_of_find?_eq_some hf]
      · simp [hst, jsonHasIdKey]

/-- C9 witness: the theorem applied at a concrete transport and state. -/
theorem c9_folder_id_frame_witness :
    (Document360Model.get_all_folders transportCreated ⟨none⟩).state = ⟨none⟩
  ∧ (Document360Model.update_folder transportCreated ⟨none⟩ (Json.str "f1")
        "m").state = ⟨none⟩
  ∧ (Document360Model.delete_folder transportCreated ⟨none⟩
        (Json.str "f1")).state = ⟨none⟩
  ∧ (Document360Model.create_folder transportCreated ⟨none⟩
        "n").state.folder_id
      = (folderIdAssignment transportCreated "n").getD none
  ∧ (folderIdAssignment transportCreated "n").isSome
      = (match transportCreated ⟨Method.POST, none,
            some (Json.obj [("name", Json.str "n")])⟩ with
         | some r => decide (r.status = 201) && jsonHasIdKey r.jsonP
         | none => false) :=
  c9_folder_id_frame transportCreated ⟨none⟩ "n" "m" (Json.str "f1")

/-- C10: when List (resp. Create) receives the expected status 200
(resp. 201) but a body that `response.json()` cannot parse, the raised
`JSONDecodeError` is caught as a `RequestException`, so the method
returns `(None, None)` exactly as for a transport failure — the response
is discarded and the failure is reported with observed status absent
(`None`) rather than the actually observed 200/201, and with no detail. -/
theorem c10_unparseable_body_like_transport_failure
    (t : Transport) (s : ModelState) (name : String) (r1 r2 : PyResponse)
    (h1 : t ⟨Method.GET, none, none⟩ = some r1)
    (h1s : r1.status = 200) (h1j : r1.jsonP = none)
    (h2 : t ⟨Method.POST, none,
        some (Json.obj [("name", Json.str name)])⟩ = some r2)
    (h2s : r2.status = 201) (h2j : r2.jsonP = none) :
    (Document360Model.get_all_folders t s).result = (none, none)
  ∧ (Document360Model.create_folder t s name).result = Except.ok (none, none)
  ∧ (Document360Presenter.get_all_folders t s).events =
      [ViewEvent.showSuccess "Task 1: Fetching all folders",
       ViewEvent.logRequest Method.GET none none,
       ViewEvent.logResponse none,
       ViewEvent.showError "Failed to fetch folders" none (some 200) none]
  ∧ (Document360Presenter.create_folder t s name).events =
      [ViewEvent.showSuccess "Task 2: Creating a new folder",
       ViewEvent.logRequest Method.POST none
         (some (Json.obj [("name", Json.str name)])),
       ViewEvent.logResponse none,
       ViewEvent.showError "Failed to create folder" none (some 201) none] := by
  refine ⟨?_, ?_, ?_, ?_⟩ <;>
    simp [Document360Model.get_all_folders, Document360Model.create_folder,
      Document360Presenter.get_all_folders,
      Document360Presenter.create_folder, h1, h1s, h1j, h2, h2s, h2j,
      error_detail_block, status_code_if]

/-- C10 witness: the hypotheses hold for the transport that answers every
request with the expected status and the raw body `not json`. -/
theorem c10_unparseable_body_witness :
    transportBadBody ⟨Method.GET, none, none⟩ = some responseBadBodyOk
  ∧ responseBadBodyOk.status = 200
  ∧ responseBadBodyOk.jsonP = none
  ∧ (Document360Model.get_all_folders transportBadBody ⟨none⟩).result
      = (none, none) :=
  ⟨rfl, rfl, rfl,
   (c10_unparseable_body_like_transport_failure transportBadBody ⟨none⟩ "n"
      responseBadBodyOk responseBadBodyCreated rfl rfl rfl rfl rfl rfl).1⟩
